import Mathlib

/-!
Verification of the ZINova oil-spill dashboard (src/app.py).

The session data model and every state-mutating handler of the Streamlit
script are embedded as pure Lean definitions:

* numeric literals from the source are exact decimals; coordinates are
  embedded as rationals, spill/history areas (exact tenths of km² in the
  source) as natural numbers of tenths, confidences (exact hundredths) as
  natural numbers of percent;
* the source compares `sqrt(dx^2+dy^2) < 0.2` and keeps a running minimum
  of square roots; squaring is strictly monotone on nonnegative reals, so
  the embedding compares squared distances against `0.04 = 1/25`, which
  yields the same argmin and the same threshold test;
* the cleanup-status dictionary is initialized with every known spill at
  "idle" and is only ever read through `.get(sid, "idle")`, so it is
  embedded as a total function `String → Status` that is initially
  constantly `idle`;
* the external chat-completion call is embedded as an oracle parameter
  `svc : String → String → Except String String` (system prompt and user
  content in, either the returned text or a raised exception's message out).
-/

/-- Cleanup lifecycle values; the source stores them as the strings
"idle" | "cleaning" | "done" (see `init_cleanup_status`'s docstring). -/
inductive Status where
  | idle
  | cleaning
  | done
deriving DecidableEq, Repr

/-- One record of `DANGER_ZONES["zones"]` in src/app.py. -/
structure Zone where
  zone_id : String
  lat : ℚ
  lon : ℚ
  scene_id : String
deriving DecidableEq, Repr

def zone1 : Zone := { zone_id := "Z1", lat := 40.20, lon := 49.80, scene_id := "SCENARIO_001" }

def zone2 : Zone := { zone_id := "Z2", lat := 40.05, lon := 49.9, scene_id := "SCENARIO_001" }

def zone3 : Zone := { zone_id := "Z3", lat := 39.90, lon := 50.00, scene_id := "SCENARIO_001" }

/-- The fixed zone table `DANGER_ZONES["zones"]`, in source order. -/
def DANGER_ZONES : List Zone := [zone1, zone2, zone3]

/-- The `properties` record of one spill feature in `get_spill_geojson`.
Areas are stored in tenths of km² (the source floats 2.5, 3.8, 1.5 are
exact tenths), confidences in percent (0.92, 0.88, 0.79 are exact
hundredths). Geometry is dropped: the source never reads it. -/
structure SpillProps where
  spill_id : String
  area_tenths : Nat
  oil_type : String
  thickness_class : String
  confidence_pct : Nat
deriving DecidableEq, Repr

def s1props : SpillProps :=
  { spill_id := "S1", area_tenths := 25, oil_type := "crude",
    thickness_class := "thick", confidence_pct := 92 }

def s2props : SpillProps :=
  { spill_id := "S2", area_tenths := 38, oil_type := "crude",
    thickness_class := "medium", confidence_pct := 88 }

def s3props : SpillProps :=
  { spill_id := "S3", area_tenths := 15, oil_type := "crude",
    thickness_class := "thin", confidence_pct := 79 }

/-- Embeds `get_spill_geojson(zone_id)`: the per-zone feature lists of the
`spill_data` dict, with `.get(zone_id, empty)` for unknown keys. -/
def get_spill_geojson (zone_id : String) : List SpillProps :=
  if zone_id = "Z1" then [s1props]
  else if zone_id = "Z2" then [s2props]
  else if zone_id = "Z3" then [s3props]
  else []

/-- Embeds `get_zone_meta(zone_id)`: first zone of `DANGER_ZONES["zones"]` whose
id matches, `None` otherwise. -/
def get_zone_meta (zone_id : String) : Option Zone :=
  DANGER_ZONES.find? (fun z => z.zone_id == zone_id)

/-- One record of `HISTORY_DATA`; areas again in tenths of km². -/
structure HEvent where
  date : String
  area_tenths : Nat
  spill_id : String
deriving DecidableEq, Repr

/-- Embeds `HISTORY_DATA`: per-zone historical events, `.get(zone_id, [])` for
unknown keys. -/
def HISTORY_DATA (zone_id : String) : List HEvent :=
  if zone_id = "Z1" then
    [ { date := "2023-05-10", area_tenths := 18, spill_id := "H1" },
      { date := "2023-08-21", area_tenths := 22, spill_id := "H2" },
      { date := "2024-01-03", area_tenths := 11, spill_id := "H3" } ]
  else if zone_id = "Z2" then
    [ { date := "2022-11-02", area_tenths := 30, spill_id := "H4" } ]
  else if zone_id = "Z3" then
    [ { date := "2023-02-15", area_tenths := 9, spill_id := "H5" },
      { date := "2023-09-10", area_tenths := 12, spill_id := "H6" } ]
  else []

/-- Renders a number of tenths the way Python's `f"{x:.1f}"` renders the
corresponding (exact-tenth) float: integer part, dot, one digit. -/
def tenthsToString (t : Nat) : String :=
  toString (t / 10) ++ "." ++ toString (t % 10)

/-- Embeds `max(events, key=lambda e: e["date"])`: Python's `max` scans left to
right and replaces the champion only on a strictly greater key, so the
first maximum wins. Python compares strings lexicographically by code
point, which is the lexicographic order on the strings' character lists. -/
def latestEvent (e : HEvent) (rest : List HEvent) : HEvent :=
  rest.foldl (fun acc x => if acc.date.data < x.date.data then x else acc) e

/-- Embeds `get_history_summary(zone_id)` from src/app.py. -/
def get_history_summary (zone_id : String) : String :=
  match HISTORY_DATA zone_id with
  | [] => "No historical spills recorded for this zone."
  | e :: rest =>
    let events := e :: rest
    let total_events := events.length
    let total_area := (events.map HEvent.area_tenths).sum
    let max_area := (events.map HEvent.area_tenths).foldl Nat.max 0
    let latest := latestEvent e rest
    "This zone has " ++ toString total_events ++ " historical spills, " ++
    "total affected area ~" ++ tenthsToString total_area ++ " km². " ++
    "Largest historical spill ~" ++ tenthsToString max_area ++ " km². " ++
    "Most recent spill on " ++ latest.date ++ " with area ~" ++
    tenthsToString latest.area_tenths ++ " km²."

/-- The fixed system prompt of `get_ai_response`. -/
def systemPromptText : String :=
  "You are an expert assisting operators with offshore oil spill analysis. " ++
  "Use the provided zone, spill attributes, and historical patterns to infer " ++
  "likely sources, risk level, and recommended actions. Be concise but specific " ++
  "and avoid inventing data not implied by the context."

/-- Renders a nonnegative rational that is an exact multiple of 1/100 the
way Python's `repr` renders the corresponding float literal (trailing zero
of the hundredths digit dropped, e.g. 40.20 ↦ "40.2", 50.00 ↦ "50.0"). -/
def hundredthsRepr (q : ℚ) : String :=
  let n := (q * 100).num.toNat
  let ip := n / 100
  let fr := n % 100
  if fr % 10 = 0 then toString ip ++ "." ++ toString (fr / 10)
  else if fr < 10 then toString ip ++ ".0" ++ toString fr
  else toString ip ++ "." ++ toString fr

/-- The `user_context` prompt built by `get_ai_response` (after `.strip()`).
`zone_meta.get("name", zone_meta.get("zone_id", ...))` resolves to the zone
id because the zone dicts carry no "name" key. -/
def userContext (zm : Zone) (sp : SpillProps) (history_text user_question : String) : String :=
  "Zone context:\n- Name: " ++ zm.zone_id ++
  "\n- Zone ID: " ++ zm.zone_id ++
  "\n- Scene ID: " ++ zm.scene_id ++
  "\n- Approximate coordinates: " ++ hundredthsRepr zm.lat ++ " N, " ++
  hundredthsRepr zm.lon ++ " E\n\nCurrent spill:\n- Spill ID: " ++ sp.spill_id ++
  "\n- Oil type: " ++ sp.oil_type ++
  "\n- Area: " ++ tenthsToString sp.area_tenths ++ " km²" ++
  "\n- Thickness class: " ++ sp.thickness_class ++
  "\n- Detection confidence: " ++ toString sp.confidence_pct ++ "%" ++
  "\n\nHistorical pattern summary:\n" ++ history_text ++
  "\n\nOperator question:\n" ++ user_question ++
  "\n\nRespond as an expert spill analyst. Include:" ++
  "\n- Interpretation of historical trend" ++
  "\n- Likely source/risk drivers" ++
  "\n- Risk level (LOW / MEDIUM / HIGH)" ++
  "\n- 2–3 concrete recommended actions."

/-- Embeds `get_ai_response(zone_meta, spill_props, history_text, user_question)`.
`hasKey` embeds `client is not None` (the OPENAI_API_KEY check at startup);
`svc` embeds the chat-completion call: `Except.ok` is a returned message
content, `Except.error e` a raised exception rendered as the string `e`
(the `except Exception as e` branch formats it with `f"... {e}"`). -/
def get_ai_response (hasKey : Bool) (zone_meta : Zone) (spill_props : SpillProps)
    (history_text user_question : String)
    (svc : String → String → Except String String) : String :=
  if hasKey = false then
    "⚠️ LLM API key not configured. Set OPENAI_API_KEY in your environment to enable the assistant."
  else
    match svc systemPromptText (userContext zone_meta spill_props history_text user_question) with
    | Except.ok content => content
    | Except.error e => "⚠️ Error calling LLM API: " ++ e


/-- One entry of `st.session_state.chat_messages`. -/
structure ChatMsg where
  role : String
  content : String
deriving DecidableEq, Repr

/-- The mutable session state of src/app.py: `selected_zone_id`,
`selected_spill_id`, `chat_messages` and the `cleanup_status` mapping
(a dict read only through `.get(sid, "idle")`, hence a total function). -/
structure AppState where
  selected_zone_id : Option String
  selected_spill_id : Option String
  chat_messages : List ChatMsg
  cleanup_status : String → Status

/-- The session-start state: both selections `None`, empty transcript, and
`init_cleanup_status()`, which maps every spill of every zone to "idle"
(reads of any other key also default to "idle"). -/
def initState : AppState :=
  { selected_zone_id := none, selected_spill_id := none, chat_messages := [],
    cleanup_status := fun _ => Status.idle }

/-- The `spill_ids` list built from a zone's features (lines 544-550 and
618-624 of src/app.py). -/
def spillIds (z : String) : List String :=
  (get_spill_geojson z).map SpillProps.spill_id

/-- Embeds `dict[sid] = v` on the cleanup-status mapping. -/
def updateStatus (f : String → Status) (sid : String) (v : Status) : String → Status :=
  fun x => if x = sid then v else f x

/-- Lines 552-553 / 626-627: `if selected_spill_id not in spill_ids:
selected_spill_id = spill_ids[0]` (`None` is never in the list, so it is
replaced too; `head?` is `[0]` of the — in context nonempty — list). -/
def coerceSpill (st : AppState) (ids : List String) : AppState :=
  match st.selected_spill_id with
  | some s => if s ∈ ids then st else { st with selected_spill_id := ids.head? }
  | none => { st with selected_spill_id := ids.head? }

/-- The render-time spill coercion: it runs (twice, idempotently — in the
cleanup control and in the assistant panel) whenever a zone with a
nonempty feature list is selected. -/
def renderCoerce (st : AppState) : AppState :=
  match st.selected_zone_id with
  | none => st
  | some z =>
    if (get_spill_geojson z).isEmpty then st
    else coerceSpill st (spillIds z)

/-- Squared Euclidean distance of a click point to a zone center; the
source computes `((lat-clat)**2 + (lon-clon)**2)**0.5` and only ever
compares these square roots with each other and with 0.2, so the embedding
works with the squares (squaring is strictly monotone on nonnegatives). -/
def sqDist (p : ℚ × ℚ) (z : Zone) : ℚ :=
  (z.lat - p.1) * (z.lat - p.1) + (z.lon - p.2) * (z.lon - p.2)

/-- One iteration of the click-resolution loop: `closest` and `min_dist`
start as `None`/infinity (the accumulator starts as `none`), and the
champion is replaced only on a strictly smaller distance. -/
def closestZoneAcc (p : ℚ × ℚ) (acc : Option (Zone × ℚ)) (z : Zone) : Option (Zone × ℚ) :=
  match acc with
  | none => some (z, sqDist p z)
  | some (c, m) => if sqDist p z < m then some (z, sqDist p z) else some (c, m)

/-- The full minimum-distance loop of the map-click handler. -/
def findClosest (p : ℚ × ℚ) : Option (Zone × ℚ) :=
  DANGER_ZONES.foldl (closestZoneAcc p) none

/-- Lines 517-527: the zone a map click resolves to, `none` when the
minimum distance is not below the threshold (0.2 on square roots,
0.04 = 1/25 on squares). -/
def resolveClickToZone (p : ℚ × ℚ) : Option String :=
  match findClosest p with
  | some (c, m) => if m < 1 / 25 then some c.zone_id else none
  | none => none

/-- Lines 568-593: the cleanup button press. The button is rendered only
when a zone with features is selected, after the spill coercion of lines
552-553 has run in the same script execution; a press advances the
selected spill "idle" → "cleaning" or "cleaning" → "done" and is disabled
(no-op) on "done". -/
def opCleanupButton (st : AppState) : AppState :=
  match st.selected_zone_id with
  | none => st
  | some z =>
    if (get_spill_geojson z).isEmpty then st
    else
      let st1 := coerceSpill st (spillIds z)
      match st1.selected_spill_id with
      | none => st1
      | some sid =>
        match st1.cleanup_status sid with
        | Status.idle =>
          { st1 with cleanup_status := updateStatus st1.cleanup_status sid Status.cleaning }
        | Status.cleaning =>
          { st1 with cleanup_status := updateStatus st1.cleanup_status sid Status.done }
        | Status.done => st1

/-- Lines 603-670: a chat submission. The input is rendered only when a
zone with features is selected; the script run first performs the spill
coercion of lines 626-627, then (for a nonempty submission — an empty
`user_query` is falsy) appends the user entry, calls `get_ai_response`,
and appends the assistant entry. The `match` fallbacks for a missing
feature or zone record correspond to exceptions in the source; they are
unreachable because a nonempty feature list forces a known zone and the
coerced spill id occurs among the features. -/
def opChatTurn (q : String) (hasKey : Bool)
    (svc : String → String → Except String String) (st : AppState) : AppState :=
  match st.selected_zone_id with
  | none => st
  | some z =>
    let feats := get_spill_geojson z
    if feats.isEmpty then st
    else
      let st1 := coerceSpill st (spillIds z)
      if q = "" then st1
      else
        match st1.selected_spill_id with
        | none => st1
        | some sid =>
          match feats.find? (fun f => f.spill_id == sid) with
          | none => st1
          | some ft =>
            match get_zone_meta z with
            | none => st1
            | some zm =>
              let ans := get_ai_response hasKey zm ft (get_history_summary z) q svc
              { st1 with chat_messages :=
                  st1.chat_messages ++ [ { role := "user", content := q },
                                         { role := "assistant", content := ans } ] }

/-- The user-triggered state transitions of src/app.py:
* `sidebarZone z` — the sidebar zone selectbox handler (lines 344-352);
* `mapClick p` — the map-click handler (lines 517-531);
* `render` — a render pass over the spill selectboxes, which coerces an
  absent or out-of-zone spill selection (lines 552-553, 626-627);
* `selectSpill s` — choosing an offered option in either spill selectbox
  (lines 557-565, 630-637);
* `cleanupButton` — the cleanup button press (lines 568-593);
* `chatTurn q hasKey svc` — a chat submission (lines 665-670). -/
inductive Op where
  | sidebarZone (z : Option String)
  | mapClick (p : ℚ × ℚ)
  | render
  | selectSpill (s : String)
  | cleanupButton
  | chatTurn (q : String) (hasKey : Bool) (svc : String → String → Except String String)

/-- The transition function: what one interaction does to the session
state. For `selectSpill`, the selectbox offers exactly the selected zone's
spill labels, so an id outside that list can never be assigned (the
widget is not even rendered without a selected zone with features). -/
def applyOp : Op → AppState → AppState
  | Op.sidebarZone z, st =>
    if z ≠ st.selected_zone_id then
      { selected_zone_id := z, selected_spill_id := none, chat_messages := [],
        cleanup_status := st.cleanup_status }
    else st
  | Op.mapClick p, st =>
    match resolveClickToZone p with
    | some zid =>
      { selected_zone_id := some zid, selected_spill_id := none, chat_messages := [],
        cleanup_status := st.cleanup_status }
    | none => st
  | Op.render, st => renderCoerce st
  | Op.selectSpill s, st =>
    match st.selected_zone_id with
    | none => st
    | some z => if s ∈ spillIds z then { st with selected_spill_id := some s } else st
  | Op.cleanupButton, st => opCleanupButton st
  | Op.chatTurn q hasKey svc, st => opChatTurn q hasKey svc st

/-- States reachable from the session-start state by user interactions. -/
inductive Reachable : AppState → Prop where
  | init : Reachable initState
  | step (o : Op) (st : AppState) : Reachable st → Reachable (applyOp o st)

/-- The spill set of the currently selected zone (empty when no zone is
selected). -/
def zoneSpills : Option String → List String
  | none => []
  | some z => spillIds z

/-- The SelectionState invariant of spec section 3: a set spill selection belongs to the
selected zone's spill set. -/
def SpillInv (st : AppState) : Prop :=
  ∀ s, st.selected_spill_id = some s → s ∈ zoneSpills st.selected_zone_id

/-- A single cleanup-status step the spec permits: stay, "idle" →
"cleaning", or "cleaning" → "done". -/
def allowedStep (a b : Status) : Prop :=
  a = b ∨ (a = Status.idle ∧ b = Status.cleaning) ∨
    (a = Status.cleaning ∧ b = Status.done)

lemma allowedStep_refl (a : Status) : allowedStep a a := Or.inl rfl

lemma coerceSpill_zone (st : AppState) (ids : List String) :
    (coerceSpill st ids).selected_zone_id = st.selected_zone_id := by
  unfold coerceSpill
  split <;> first | rfl | (split_ifs <;> rfl)

lemma coerceSpill_status (st : AppState) (ids : List String) :
    (coerceSpill st ids).cleanup_status = st.cleanup_status := by
  unfold coerceSpill
  split <;> first | rfl | (split_ifs <;> rfl)

lemma coerceSpill_chat (st : AppState) (ids : List String) :
    (coerceSpill st ids).chat_messages = st.chat_messages := by
  unfold coerceSpill
  split <;> first | rfl | (split_ifs <;> rfl)

lemma coerceSpill_spill_mem (st : AppState) (ids : List String) (h : ids ≠ []) :
    ∃ sid, (coerceSpill st ids).selected_spill_id = some sid ∧ sid ∈ ids := by
  rcases ids with _ | ⟨a, l⟩
  · exact absurd rfl h
  · cases hs : st.selected_spill_id with
    | none => exact ⟨a, by simp [coerceSpill, hs], List.mem_cons_self a l⟩
    | some s =>
      by_cases hm : s ∈ a :: l
      · exact ⟨s, by simp [coerceSpill, hs, hm], hm⟩
      · exact ⟨a, by simp [coerceSpill, hs, hm], List.mem_cons_self a l⟩

lemma spillIds_ne (z : String) (hne : (get_spill_geojson z).isEmpty = false) :
    spillIds z ≠ [] := by
  unfold spillIds
  intro h
  rw [List.map_eq_nil_iff] at h
  rw [h] at hne
  simp at hne

lemma spills_nonempty_cases (z : String)
    (hne : (get_spill_geojson z).isEmpty = false) :
    z = "Z1" ∨ z = "Z2" ∨ z = "Z3" := by
  unfold get_spill_geojson at hne
  split_ifs at hne with h1 h2 h3
  · exact Or.inl h1
  · exact Or.inr (Or.inl h2)
  · exact Or.inr (Or.inr h3)
  · simp at hne

lemma renderCoerce_status (st : AppState) :
    (renderCoerce st).cleanup_status = st.cleanup_status := by
  unfold renderCoerce
  split <;> first | rfl | (split_ifs <;> first | rfl | exact coerceSpill_status _ _)

lemma opChatTurn_status (q : String) (k : Bool)
    (svc : String → String → Except String String) (st : AppState) :
    (opChatTurn q k svc st).cleanup_status = st.cleanup_status := by
  unfold opChatTurn
  cases hz : st.selected_zone_id with
  | none => rfl
  | some z =>
    dsimp only
    split_ifs with h1 h2
    · rfl
    · exact coerceSpill_status st (spillIds z)
    · cases hs : (coerceSpill st (spillIds z)).selected_spill_id with
      | none => exact coerceSpill_status st (spillIds z)
      | some sid =>
        dsimp only
        cases hf : List.find? (fun f => f.spill_id == sid) (get_spill_geojson z) with
        | none => exact coerceSpill_status st (spillIds z)
        | some ft =>
          dsimp only
          cases hm : get_zone_meta z with
          | none => exact coerceSpill_status st (spillIds z)
          | some zm => exact coerceSpill_status st (spillIds z)

lemma spillInv_of_eq (st1 st2 : AppState)
    (hzone : st2.selected_zone_id = st1.selected_zone_id)
    (hspill : st2.selected_spill_id = st1.selected_spill_id)
    (h : SpillInv st1) : SpillInv st2 := by
  intro s hs
  rw [hspill] at hs
  rw [hzone]
  exact h s hs

lemma spillInv_coerce (st : AppState) (z : String) (hz : st.selected_zone_id = some z)
    (hne : spillIds z ≠ []) : SpillInv (coerceSpill st (spillIds z)) := by
  obtain ⟨sid, hsid, hmem⟩ := coerceSpill_spill_mem st (spillIds z) hne
  intro s hs
  rw [hsid] at hs
  cases hs
  rw [coerceSpill_zone, hz]
  exact hmem

lemma cleanupButton_status_step (st : AppState) (s : String) :
    allowedStep (st.cleanup_status s) ((opCleanupButton st).cleanup_status s) := by
  unfold opCleanupButton
  cases hz : st.selected_zone_id with
  | none => exact allowedStep_refl _
  | some z =>
    dsimp only
    split_ifs with h1
    · exact allowedStep_refl _
    · cases hs : (coerceSpill st (spillIds z)).selected_spill_id with
      | none =>
        dsimp only
        rw [coerceSpill_status]
        exact allowedStep_refl _
      | some sid =>
        dsimp only
        cases hcs : (coerceSpill st (spillIds z)).cleanup_status sid with
        | idle =>
          dsimp only
          simp only [updateStatus, coerceSpill_status]
          rw [coerceSpill_status] at hcs
          by_cases hx : s = sid
          · subst hx
            rw [if_pos rfl]
            exact Or.inr (Or.inl ⟨hcs, rfl⟩)
          · rw [if_neg hx]
            exact allowedStep_refl _
        | cleaning =>
          dsimp only
          simp only [updateStatus, coerceSpill_status]
          rw [coerceSpill_status] at hcs
          by_cases hx : s = sid
          · subst hx
            rw [if_pos rfl]
            exact Or.inr (Or.inr ⟨hcs, rfl⟩)
          · rw [if_neg hx]
            exact allowedStep_refl _
        | done =>
          dsimp only
          rw [coerceSpill_status]
          exact allowedStep_refl _

/-- C2: starting from the initial all-idle mapping, the cleanup status of
every spill only ever moves along the strict one-way progression
idle → cleaning → done: no operation sets a status from "cleaning" or
"done" back to "idle", from "done" to "cleaning", or from "idle" directly
to "done". -/
theorem cleanup_status_one_way :
    (∀ s, initState.cleanup_status s = Status.idle) ∧
    (∀ (o : Op) (st : AppState) (s : String),
      allowedStep (st.cleanup_status s) ((applyOp o st).cleanup_status s)) := by
  constructor
  · intro s
    rfl
  · intro o st s
    cases o with
    | sidebarZone z =>
      dsimp only [applyOp]
      split_ifs with h
      · exact allowedStep_refl _
      · exact allowedStep_refl _
    | mapClick p =>
      dsimp only [applyOp]
      cases hp : resolveClickToZone p with
      | none => exact allowedStep_refl _
      | some zid =>
        dsimp only
        exact allowedStep_refl _
    | render =>
      dsimp only [applyOp]
      rw [renderCoerce_status]
      exact allowedStep_refl _
    | selectSpill s2 =>
      dsimp only [applyOp]
      cases hz : st.selected_zone_id with
      | none => exact allowedStep_refl _
      | some z =>
        dsimp only
        split_ifs with h
        · exact allowedStep_refl _
        · exact allowedStep_refl _
    | cleanupButton => exact cleanupButton_status_step st s
    | chatTurn q k svc =>
      dsimp only [applyOp]
      rw [opChatTurn_status]
      exact allowedStep_refl _

lemma spillInv_step (o : Op) (st : AppState) (hinv : SpillInv st) :
    SpillInv (applyOp o st) := by
  cases o with
  | sidebarZone z =>
    dsimp only [applyOp]
    split_ifs with h
    · intro s hs
      have hs2 : (none : Option String) = some s := hs
      exact Option.noConfusion hs2
    · exact hinv
  | mapClick p =>
    dsimp only [applyOp]
    cases hp : resolveClickToZone p with
    | none => exact hinv
    | some zid =>
      dsimp only
      intro s hs
      have hs2 : (none : Option String) = some s := hs
      exact Option.noConfusion hs2
  | render =>
    dsimp only [applyOp]
    unfold renderCoerce
    cases hz : st.selected_zone_id with
    | none => exact hinv
    | some z =>
      dsimp only
      split_ifs with h1
      · exact hinv
      · exact spillInv_coerce st z hz (spillIds_ne z (by simpa using h1))
  | selectSpill s2 =>
    dsimp only [applyOp]
    cases hz : st.selected_zone_id with
    | none => exact hinv
    | some z =>
      dsimp only
      split_ifs with h
      · intro s hs
        have hs2 : some s2 = some s := hs
        cases hs2
        exact h
      · exact hinv
  | cleanupButton =>
    dsimp only [applyOp]
    unfold opCleanupButton
    cases hz : st.selected_zone_id with
    | none => exact hinv
    | some z =>
      dsimp only
      split_ifs with h1
      · exact hinv
      · have hc := spillInv_coerce st z hz (spillIds_ne z (by simpa using h1))
        cases hs : (coerceSpill st (spillIds z)).selected_spill_id with
        | none => exact hc
        | some sid =>
          dsimp only
          cases hcs : (coerceSpill st (spillIds z)).cleanup_status sid with
          | idle =>
            dsimp only
            exact spillInv_of_eq (coerceSpill st (spillIds z)) _ rfl hs.symm hc
          | cleaning =>
            dsimp only
            exact spillInv_of_eq (coerceSpill st (spillIds z)) _ rfl hs.symm hc
          | done => exact hc
  | chatTurn q k svc =>
    dsimp only [applyOp]
    unfold opChatTurn
    cases hz : st.selected_zone_id with
    | none => exact hinv
    | some z =>
      dsimp only
      split_ifs with h1 h2
      · exact hinv
      · exact spillInv_coerce st z hz (spillIds_ne z (by simpa using h1))
      · have hc := spillInv_coerce st z hz (spillIds_ne z (by simpa using h1))
        cases hs : (coerceSpill st (spillIds z)).selected_spill_id with
        | none => exact hc
        | some sid =>
          dsimp only
          cases hf : List.find? (fun f => f.spill_id == sid) (get_spill_geojson z) with
          | none => exact hc
          | some ft =>
            dsimp only
            cases hm : get_zone_meta z with
            | none => exact hc
            | some zm =>
              dsimp only
              exact spillInv_of_eq (coerceSpill st (spillIds z)) _ rfl hs.symm hc

/-- C9: in every reachable selection state, a set spill selection belongs
to the selected zone's spill set, and this invariant is preserved by every
operation (zone changes, map clicks, renders, spill selections, cleanup
presses and chat turns). -/
theorem spill_selection_invariant :
    (∀ st : AppState, Reachable st → SpillInv st) ∧
    (∀ (o : Op) (st : AppState), SpillInv st → SpillInv (applyOp o st)) := by
  refine ⟨?_, spillInv_step⟩
  intro st h
  induction h with
  | init =>
    intro s hs
    have hs2 : (none : Option String) = some s := hs
    exact Option.noConfusion hs2
  | step o st2 h2 ih => exact spillInv_step o st2 ih

/-- Witness for C9 at the initial state: the invariant holds there. -/
theorem spill_selection_invariant_witness : SpillInv initState :=
  spill_selection_invariant.1 initState Reachable.init

/-- C1: selecting a zone id z that differs from the current one — through
the sidebar dropdown, or through a map click that resolves to a zone —
sets the selected zone id, resets the selected spill id to none, and
empties the chat transcript, leaving the cleanup statuses untouched (the
map-click path does this for the resolved zone even when it already was
the selection). -/
theorem selectZone_resets (st : AppState) (z : Option String) (p : ℚ × ℚ) (zid : String)
    (hz : z ≠ st.selected_zone_id) (hp : resolveClickToZone p = some zid) :
    applyOp (Op.sidebarZone z) st =
      { selected_zone_id := z, selected_spill_id := none, chat_messages := [],
        cleanup_status := st.cleanup_status } ∧
    applyOp (Op.mapClick p) st =
      { selected_zone_id := some zid, selected_spill_id := none, chat_messages := [],
        cleanup_status := st.cleanup_status } := by
  obtain ⟨zf, sf, cf, stf⟩ := st
  constructor
  · dsimp only [applyOp]
    rw [if_pos hz]
  · dsimp only [applyOp]
    rw [hp]

/-- Witness for C1: from the initial state, picking "Z2" in the sidebar
and clicking exactly on Z1's center both reset spill and transcript. -/
theorem selectZone_resets_witness :
    applyOp (Op.sidebarZone (some "Z2")) initState =
      { selected_zone_id := some "Z2", selected_spill_id := none, chat_messages := [],
        cleanup_status := initState.cleanup_status } ∧
    applyOp (Op.mapClick (40.20, 49.80)) initState =
      { selected_zone_id := some "Z1", selected_spill_id := none, chat_messages := [],
        cleanup_status := initState.cleanup_status } :=
  selectZone_resets initState (some "Z2") (40.20, 49.80) "Z1" (by decide)
    (by
      unfold resolveClickToZone findClosest DANGER_ZONES closestZoneAcc
      norm_num [sqDist, zone1, zone2, zone3])

/-- C4: selecting a spill id s through either spill selectbox succeeds
(sets selected spill id := s) exactly when a zone is selected and s is in
that zone's spill set; otherwise the operation leaves the whole state
unchanged. -/
theorem selectSpill_valid_iff (st : AppState) (s : String) :
    ((∃ z, st.selected_zone_id = some z ∧ s ∈ spillIds z) →
      applyOp (Op.selectSpill s) st = { st with selected_spill_id := some s }) ∧
    ((¬ ∃ z, st.selected_zone_id = some z ∧ s ∈ spillIds z) →
      applyOp (Op.selectSpill s) st = st) := by
  obtain ⟨zf, sf, cf, stf⟩ := st
  constructor
  · rintro ⟨z, hz, hs⟩
    have hz2 : zf = some z := hz
    subst hz2
    dsimp only [applyOp]
    rw [if_pos hs]
  · intro h
    cases zf with
    | none => rfl
    | some z =>
      have hs : s ∉ spillIds z := fun hmem => h ⟨z, rfl, hmem⟩
      dsimp only [applyOp]
      rw [if_neg hs]

def stZ1 : AppState :=
  { selected_zone_id := some "Z1", selected_spill_id := none, chat_messages := [],
    cleanup_status := fun _ => Status.idle }

/-- Witness for C4: with Z1 selected, selecting "S1" succeeds and
selecting "S2" (a spill of Z2) is rejected without any state change. -/
theorem selectSpill_valid_iff_witness :
    applyOp (Op.selectSpill "S1") stZ1 = { stZ1 with selected_spill_id := some "S1" } ∧
    applyOp (Op.selectSpill "S2") stZ1 = stZ1 := by
  constructor
  · exact (selectSpill_valid_iff stZ1 "S1").1 ⟨"Z1", rfl, by decide⟩
  · refine (selectSpill_valid_iff stZ1 "S2").2 ?_
    rintro ⟨z, hz, hs⟩
    have hz2 : z = "Z1" := by
      have : some "Z1" = some z := hz
      cases this
      rfl
    subst hz2
    revert hs
    decide

/-- C10: whenever a zone with at least one spill is selected, the render
pass coerces the spill selection: a valid selection is kept unchanged, and
a selection that is none or outside the zone is silently replaced by the
first spill of the zone's spill list — so afterwards the selected spill id
is never none for such a zone. -/
theorem renderCoerce_spec (st : AppState) (z : String)
    (hz : st.selected_zone_id = some z) (hne : (get_spill_geojson z).isEmpty = false) :
    (∀ s, st.selected_spill_id = some s → s ∈ spillIds z → renderCoerce st = st) ∧
    (st.selected_spill_id = none →
      (renderCoerce st).selected_spill_id = (spillIds z).head?) ∧
    (∀ s, st.selected_spill_id = some s → s ∉ spillIds z →
      (renderCoerce st).selected_spill_id = (spillIds z).head?) ∧
    (∃ sid, (renderCoerce st).selected_spill_id = some sid ∧ sid ∈ spillIds z) := by
  refine ⟨?_, ?_, ?_, ?_⟩
  · intro s hs hmem
    simp [renderCoerce, hz, hne, coerceSpill, hs, hmem]
  · intro hs
    simp [renderCoerce, hz, hne, coerceSpill, hs]
  · intro s hs hmem
    simp [renderCoerce, hz, hne, coerceSpill, hs, hmem]
  · have hni : ¬ (get_spill_geojson z).isEmpty = true := by simp [hne]
    have heq : renderCoerce st = coerceSpill st (spillIds z) := by
      simp [renderCoerce, hz, hni]
    rw [heq]
    exact coerceSpill_spill_mem st (spillIds z) (spillIds_ne z hne)

/-- Witness for C10: with Z1 selected and no spill selected, the render
pass selects "S1", the first (and only) spill of Z1. -/
theorem renderCoerce_spec_witness :
    (renderCoerce stZ1).selected_spill_id = (spillIds "Z1").head? ∧
    (renderCoerce stZ1).selected_spill_id = some "S1" := by
  constructor
  · exact (renderCoerce_spec stZ1 "Z1" rfl rfl).2.1 rfl
  · rw [(renderCoerce_spec stZ1 "Z1" rfl rfl).2.1 rfl]
    rfl

/-- C6: `get_history_summary` is a pure function of the zone id: a zone
with no recorded events yields the fixed no-history sentence, and zone
"Z1" yields the single deterministic sentence reporting 3 events, total
area 5.1 km², maximum area 2.2 km², and the maximum-date event
"2024-01-03" with area 1.1 km². -/
theorem history_summary_spec :
    (∀ z, HISTORY_DATA z = [] →
      get_history_summary z = "No historical spills recorded for this zone.") ∧
    get_history_summary "Z1" =
      "This zone has 3 historical spills, total affected area ~5.1 km². Largest historical spill ~2.2 km². Most recent spill on 2024-01-03 with area ~1.1 km²." := by
  constructor
  · intro z h
    unfold get_history_summary
    rw [h]
  · decide

/-- Witness for C6: zone "Z9" has no events, so the no-history sentence is
returned there. -/
theorem history_summary_spec_witness :
    HISTORY_DATA "Z9" = [] ∧
    get_history_summary "Z9" = "No historical spills recorded for this zone." :=
  ⟨rfl, history_summary_spec.1 "Z9" rfl⟩

/-- C7: `get_ai_response` returns a string for every call: the missing-key
fallback when the credential is absent, the marked error fallback built
from the exception message when the service call raises, and the service
text verbatim on success — one of these three cases always applies, so no
exception escapes the gateway. -/
theorem gateway_always_string (hasKey : Bool) (zm : Zone) (sp : SpillProps)
    (hist q : String) (svc : String → String → Except String String) :
    (hasKey = false → get_ai_response hasKey zm sp hist q svc =
      "⚠️ LLM API key not configured. Set OPENAI_API_KEY in your environment to enable the assistant.") ∧
    (∀ e, svc systemPromptText (userContext zm sp hist q) = Except.error e →
      get_ai_response true zm sp hist q svc = "⚠️ Error calling LLM API: " ++ e) ∧
    (∀ t, svc systemPromptText (userContext zm sp hist q) = Except.ok t →
      get_ai_response true zm sp hist q svc = t) ∧
    (get_ai_response hasKey zm sp hist q svc =
        "⚠️ LLM API key not configured. Set OPENAI_API_KEY in your environment to enable the assistant."
      ∨ (∃ e, svc systemPromptText (userContext zm sp hist q) = Except.error e ∧
          get_ai_response hasKey zm sp hist q svc = "⚠️ Error calling LLM API: " ++ e)
      ∨ (∃ t, svc systemPromptText (userContext zm sp hist q) = Except.ok t ∧
          get_ai_response hasKey zm sp hist q svc = t)) := by
  refine ⟨?_, ?_, ?_, ?_⟩
  · intro h
    subst h
    rfl
  · intro e he
    unfold get_ai_response
    rw [he]
    rfl
  · intro t ht
    unfold get_ai_response
    rw [ht]
    rfl
  · cases hasKey with
    | false => exact Or.inl rfl
    | true =>
      cases hsvc : svc systemPromptText (userContext zm sp hist q) with
      | error e =>
        refine Or.inr (Or.inl ⟨e, rfl, ?_⟩)
        unfold get_ai_response
        rw [hsvc]
        rfl
      | ok t =>
        refine Or.inr (Or.inr ⟨t, rfl, ?_⟩)
        unfold get_ai_response
        rw [hsvc]
        rfl

/-- Witness for C7: the three outcomes at concrete inputs — missing key,
raising service, succeeding service. -/
theorem gateway_always_string_witness :
    get_ai_response false zone1 s1props "h" "q" (fun _ _ => Except.ok "A") =
      "⚠️ LLM API key not configured. Set OPENAI_API_KEY in your environment to enable the assistant." ∧
    get_ai_response true zone1 s1props "h" "q" (fun _ _ => Except.error "boom") =
      "⚠️ Error calling LLM API: " ++ "boom" ∧
    get_ai_response true zone1 s1props "h" "q" (fun _ _ => Except.ok "A") = "A" :=
  ⟨(gateway_always_string false zone1 s1props "h" "q" (fun _ _ => Except.ok "A")).1 rfl,
   (gateway_always_string true zone1 s1props "h" "q" (fun _ _ => Except.error "boom")).2.1 "boom" rfl,
   (gateway_always_string true zone1 s1props "h" "q" (fun _ _ => Except.ok "A")).2.2.1 "A" rfl⟩

/-- A session state with zone Z1 and its spill S1 selected and every
status still "idle" (the state right after dispatching would start). -/
def stC3 : AppState :=
  { selected_zone_id := some "Z1", selected_spill_id := some "S1", chat_messages := [],
    cleanup_status := fun _ => Status.idle }

/-- Counterexample to C3: pressing the cleanup button on S1 (status
"idle") gives "cleaning", but pressing it again does NOT leave the status
at "cleaning": the second press advances it to "done" instead of being
rejected. -/
theorem dispatch_twice_gives_done :
    (applyOp Op.cleanupButton stC3).cleanup_status "S1" = Status.cleaning ∧
    (applyOp Op.cleanupButton (applyOp Op.cleanupButton stC3)).cleanup_status "S1" = Status.done ∧
    Status.done ≠ Status.cleaning := by
  refine ⟨?_, ?_, ?_⟩ <;> decide

/-- C3 amended: pressing the cleanup button on a spill whose status is
"done" leaves the whole state unchanged, but pressing it on a "cleaning"
spill advances the status to "done" (completing the cleanup rather than
rejecting the press); in particular two presses on S1 starting from "idle"
leave S1 at "done". -/
theorem cleanupButton_second_press_completes :
    (∀ (st : AppState) (z sid : String),
      st.selected_zone_id = some z → st.selected_spill_id = some sid → sid ∈ spillIds z →
      (st.cleanup_status sid = Status.done → applyOp Op.cleanupButton st = st) ∧
      (st.cleanup_status sid = Status.cleaning →
        applyOp Op.cleanupButton st =
          { st with cleanup_status := updateStatus st.cleanup_status sid Status.done })) ∧
    (applyOp Op.cleanupButton (applyOp Op.cleanupButton stC3)).cleanup_status "S1" = Status.done := by
  constructor
  · intro st z sid hz hs hmem
    have hne : ¬ ((get_spill_geojson z).isEmpty = true) := by
      cases hg : get_spill_geojson z with
      | nil =>
        exfalso
        have hids : spillIds z = [] := by simp [spillIds, hg]
        rw [hids] at hmem
        exact List.not_mem_nil sid hmem
      | cons a l => simp
    have hco : coerceSpill st (spillIds z) = st := by
      unfold coerceSpill
      rw [hs]
      dsimp only
      rw [if_pos hmem]
    constructor
    · intro hd
      dsimp only [applyOp]
      unfold opCleanupButton
      rw [hz]
      dsimp only
      rw [if_neg hne, hco, hs]
      dsimp only
      rw [hd]
    · intro hc
      dsimp only [applyOp]
      unfold opCleanupButton
      rw [hz]
      dsimp only
      rw [if_neg hne, hco, hs]
      dsimp only
      rw [hc]
      dsimp only
      rw [hz]
  · decide

/-- A state like `stC3` but with every cleanup status already "done". -/
def stDone : AppState :=
  { selected_zone_id := some "Z1", selected_spill_id := some "S1", chat_messages := [],
    cleanup_status := fun _ => Status.done }

/-- Witness for the amended C3: on a "done" spill the button press changes
nothing. -/
theorem cleanupButton_second_press_completes_witness :
    applyOp Op.cleanupButton stDone = stDone :=
  (cleanupButton_second_press_completes.1 stDone "Z1" "S1" rfl rfl (by decide)).1 rfl

lemma opChatTurn_chat_general (st : AppState) (q : String) (hasKey : Bool)
    (svc : String → String → Except String String) (z : String) (pr : SpillProps) (zm : Zone)
    (hz : st.selected_zone_id = some z)
    (hg : get_spill_geojson z = [pr])
    (hm : get_zone_meta z = some zm)
    (hq : q ≠ "") :
    (opChatTurn q hasKey svc st).chat_messages =
      st.chat_messages ++
        [ { role := "user", content := q },
          { role := "assistant",
            content := get_ai_response hasKey zm pr (get_history_summary z) q svc } ] := by
  have hids : spillIds z = [pr.spill_id] := by simp [spillIds, hg]
  have hco : (coerceSpill st (spillIds z)).selected_spill_id = some pr.spill_id := by
    rw [hids]
    unfold coerceSpill
    cases hs : st.selected_spill_id with
    | none => rfl
    | some s =>
      dsimp only
      by_cases hmem : s ∈ [pr.spill_id]
      · rw [if_pos hmem, hs]
        have hsp : s = pr.spill_id := by simpa using hmem
        rw [hsp]
      · rw [if_neg hmem]
        rfl
  have hchat : (coerceSpill st (spillIds z)).chat_messages = st.chat_messages :=
    coerceSpill_chat st (spillIds z)
  have hfind : List.find? (fun f => f.spill_id == pr.spill_id) [pr] = some pr := by
    simp [List.find?]
  have hni : ¬ ((get_spill_geojson z).isEmpty = true) := by
    rw [hg]
    simp
  unfold opChatTurn
  rw [hz]
  dsimp only
  rw [if_neg hni, if_neg hq, hco]
  dsimp only
  rw [hg, hfind]
  dsimp only
  rw [hm]
  dsimp only
  rw [hchat]

/-- C8: a chat submission performed with a zone (having spills) selected
and a nonempty question always appends exactly two transcript entries —
a user entry carrying the question, then an assistant entry carrying the
gateway's answer-or-fallback text — whatever the gateway outcome `svc`
is. -/
theorem chatTurn_two_entries (st : AppState) (z q : String) (hasKey : Bool)
    (svc : String → String → Except String String)
    (hz : st.selected_zone_id = some z)
    (hne : (get_spill_geojson z).isEmpty = false)
    (hq : q ≠ "") :
    ∃ zm ft,
      get_zone_meta z = some zm ∧
      (applyOp (Op.chatTurn q hasKey svc) st).chat_messages =
        st.chat_messages ++
          [ { role := "user", content := q },
            { role := "assistant",
              content := get_ai_response hasKey zm ft (get_history_summary z) q svc } ] := by
  rcases spills_nonempty_cases z hne with h | h | h <;> subst h
  · exact ⟨zone1, s1props, rfl,
      opChatTurn_chat_general st q hasKey svc "Z1" s1props zone1 hz rfl rfl hq⟩
  · exact ⟨zone2, s2props, rfl,
      opChatTurn_chat_general st q hasKey svc "Z2" s2props zone2 hz rfl rfl hq⟩
  · exact ⟨zone3, s3props, rfl,
      opChatTurn_chat_general st q hasKey svc "Z3" s3props zone3 hz rfl rfl hq⟩

/-- Witness for C8: a concrete turn (no credential, so the fallback
answer) appends exactly the user/assistant pair to the empty transcript
of `stZ1`. -/
theorem chatTurn_two_entries_witness :
    ∃ zm ft,
      get_zone_meta "Z1" = some zm ∧
      (applyOp (Op.chatTurn "hello" false (fun _ _ => Except.ok "ok")) stZ1).chat_messages =
        stZ1.chat_messages ++
          [ { role := "user", content := "hello" },
            { role := "assistant",
              content := get_ai_response false zm ft (get_history_summary "Z1") "hello"
                (fun _ _ => Except.ok "ok") } ] :=
  chatTurn_two_entries stZ1 "Z1" "hello" false (fun _ _ => Except.ok "ok") rfl rfl (by decide)

lemma zone_id_vals :
    zone1.zone_id = "Z1" ∧ zone2.zone_id = "Z2" ∧ zone3.zone_id = "Z3" :=
  ⟨rfl, rfl, rfl⟩

lemma findClosest_eq (p : ℚ × ℚ) :
    findClosest p =
      if sqDist p zone2 < sqDist p zone1 then
        if sqDist p zone3 < sqDist p zone2 then some (zone3, sqDist p zone3)
        else some (zone2, sqDist p zone2)
      else
        if sqDist p zone3 < sqDist p zone1 then some (zone3, sqDist p zone3)
        else some (zone1, sqDist p zone1) := by
  unfold findClosest DANGER_ZONES
  dsimp only [List.foldl]
  rw [show closestZoneAcc p none zone1 = some (zone1, sqDist p zone1) from rfl]
  by_cases h1 : sqDist p zone2 < sqDist p zone1
  · rw [show closestZoneAcc p (some (zone1, sqDist p zone1)) zone2 = some (zone2, sqDist p zone2)
        from by simp [closestZoneAcc, h1]]
    by_cases h2 : sqDist p zone3 < sqDist p zone2
    · rw [show closestZoneAcc p (some (zone2, sqDist p zone2)) zone3 = some (zone3, sqDist p zone3)
          from by simp [closestZoneAcc, h2]]
      rw [if_pos h1, if_pos h2]
    · rw [show closestZoneAcc p (some (zone2, sqDist p zone2)) zone3 = some (zone2, sqDist p zone2)
          from by simp [closestZoneAcc, h2]]
      rw [if_pos h1, if_neg h2]
  · rw [show closestZoneAcc p (some (zone1, sqDist p zone1)) zone2 = some (zone1, sqDist p zone1)
        from by simp [closestZoneAcc, h1]]
    by_cases h3 : sqDist p zone3 < sqDist p zone1
    · rw [show closestZoneAcc p (some (zone1, sqDist p zone1)) zone3 = some (zone3, sqDist p zone3)
          from by simp [closestZoneAcc, h3]]
      rw [if_neg h1, if_pos h3]
    · rw [show closestZoneAcc p (some (zone1, sqDist p zone1)) zone3 = some (zone1, sqDist p zone1)
          from by simp [closestZoneAcc, h3]]
      rw [if_neg h1, if_neg h3]

lemma resolveClickToZone_eq (p : ℚ × ℚ) :
    resolveClickToZone p =
      if sqDist p zone2 < sqDist p zone1 then
        if sqDist p zone3 < sqDist p zone2 then
          if sqDist p zone3 < 1 / 25 then some "Z3" else none
        else
          if sqDist p zone2 < 1 / 25 then some "Z2" else none
      else
        if sqDist p zone3 < sqDist p zone1 then
          if sqDist p zone3 < 1 / 25 then some "Z3" else none
        else
          if sqDist p zone1 < 1 / 25 then some "Z1" else none := by
  unfold resolveClickToZone
  rw [findClosest_eq]
  by_cases h1 : sqDist p zone2 < sqDist p zone1
  · by_cases h2 : sqDist p zone3 < sqDist p zone2
    · by_cases h3 : sqDist p zone3 < 1 / 25
      · simp [h1, h2, h3, zone_id_vals]
      · simp [h1, h2, h3, zone_id_vals]
    · by_cases h3 : sqDist p zone2 < 1 / 25
      · simp [h1, h2, h3, zone_id_vals]
      · simp [h1, h2, h3, zone_id_vals]
  · by_cases h2 : sqDist p zone3 < sqDist p zone1
    · by_cases h3 : sqDist p zone3 < 1 / 25
      · simp [h1, h2, h3, zone_id_vals]
      · simp [h1, h2, h3, zone_id_vals]
    · by_cases h3 : sqDist p zone1 < 1 / 25
      · simp [h1, h2, h3, zone_id_vals]
      · simp [h1, h2, h3, zone_id_vals]

/-- C5: a map click selects the zone whose center minimizes the (squared)
Euclidean distance to the click point when that minimum is below the
threshold, ties broken in favor of the earlier zone in the fixed order
Z1, Z2, Z3; when every zone is at least the threshold away, the click is
a miss and the state is unchanged. Distances are compared as squares
(threshold 1/25 = 0.04 = 0.2²), which matches the source's square-root
comparisons exactly. -/
theorem resolveClick_spec (p : ℚ × ℚ) :
    (resolveClickToZone p = some "Z1" ↔
      sqDist p zone1 < 1 / 25 ∧ sqDist p zone1 ≤ sqDist p zone2 ∧
        sqDist p zone1 ≤ sqDist p zone3) ∧
    (resolveClickToZone p = some "Z2" ↔
      sqDist p zone2 < 1 / 25 ∧ sqDist p zone2 < sqDist p zone1 ∧
        sqDist p zone2 ≤ sqDist p zone3) ∧
    (resolveClickToZone p = some "Z3" ↔
      sqDist p zone3 < 1 / 25 ∧ sqDist p zone3 < sqDist p zone1 ∧
        sqDist p zone3 < sqDist p zone2) ∧
    (resolveClickToZone p = none ↔
      1 / 25 ≤ sqDist p zone1 ∧ 1 / 25 ≤ sqDist p zone2 ∧
        1 / 25 ≤ sqDist p zone3) ∧
    (∀ st : AppState, resolveClickToZone p = none → applyOp (Op.mapClick p) st = st) := by
  have hmap : ∀ st : AppState, resolveClickToZone p = none →
      applyOp (Op.mapClick p) st = st := by
    intro st hn
    dsimp only [applyOp]
    rw [hn]
  refine ⟨?_, ?_, ?_, ?_, hmap⟩
  all_goals rw [resolveClickToZone_eq]
  all_goals split_ifs
  all_goals constructor
  all_goals intro hx
  all_goals try exact absurd hx (by decide)
  all_goals try exact ⟨by linarith, by linarith, by linarith⟩
  all_goals obtain ⟨hxa, hxb, hxc⟩ := hx
  all_goals first
    | rfl
    | (exfalso; linarith)

/-- Witness for C5: clicking exactly on Z1's center selects Z1, and a
click far away (the origin) resolves to no zone and changes nothing. -/
theorem resolveClick_spec_witness :
    resolveClickToZone (40.20, 49.80) = some "Z1" ∧
    resolveClickToZone (0, 0) = none ∧
    applyOp (Op.mapClick (0, 0)) initState = initState := by
  have h1 : resolveClickToZone (40.20, 49.80) = some "Z1" :=
    ((resolveClick_spec (40.20, 49.80)).1).mpr
      (by norm_num [sqDist, zone1, zone2, zone3])
  have h2 : resolveClickToZone (0, 0) = none :=
    ((resolveClick_spec (0, 0)).2.2.2.1).mpr
      (by norm_num [sqDist, zone1, zone2, zone3])
  exact ⟨h1, h2, (resolveClick_spec (0, 0)).2.2.2.2 initState h2⟩
